import Mathlib

/-!
Shallow embedding of the `PreferenceManager` module of the movie-swipe
application (source: the class `PreferenceManager` in the repository's
planning/progress document, together with the type declarations and
`DEFAULT_PREFERENCES` / `DEFAULT_WEIGHTS` constants).

Numbers that the source manipulates as JavaScript numbers are modelled as
rationals (ℚ); the decimal literals of the source (0.4, 0.5, 0.2, 0.3,
0.15, 0.1, 6.0, 5.0) appear below as the corresponding exact fractions.
`localStorage` is modelled as an explicit state record with one slot per
storage key; a `setItem` call that throws (quota exceeded, storage
unavailable) is modelled by a per-call success flag, since the source
swallows such errors in a try/catch.  Calls to `new Date()` are modelled
by an explicit clock value (`now` for timestamps, and a year argument
where `getFullYear()` is read), supplied per call or at module load.

`DEFAULT_PREFERENCES` in the source is a single mutable module constant:
when no profile is stored, `getPreferences` returns that very object by
reference, and `updatePreferencesFromInteraction` then mutates it in
place (`favoriteGenres.push`, property assignments, and the
`lastUpdated` stamp inside `savePreferences`).  The state record below
therefore carries the current contents of that shared object alongside
the two storage slots, and the update operation writes the mutated
object back into it whenever the loaded profile was the shared default.
Profiles read back from storage go through `JSON.parse` and are fresh
objects, so the stored slot has value semantics.
-/

namespace MovieSwipe

/-- `yearRange` sub-object of `UserPreferences`. -/
structure YearRange where
  min : Int
  max : Int
deriving DecidableEq

/-- The `UserPreferences` interface: genre ids are numbers, `minimumRating`
a number, `languages` a list of language codes, `lastUpdated` a timestamp
(modelled as an abstract tick count). -/
structure UserPreferences where
  favoriteGenres : List Nat
  dislikedGenres : List Nat
  yearRange : YearRange
  minimumRating : ℚ
  languages : List String
  excludeAdult : Bool
  lastUpdated : Nat
deriving DecidableEq

/-- The three interaction kinds accepted by `saveInteraction`. -/
inductive SwipeAct
  | like
  | dislike
  | skip
deriving DecidableEq

/-- The `MovieInteraction` interface. -/
structure MovieInteraction where
  movieId : Nat
  action : SwipeAct
  timestamp : Nat
  genres : List Nat
  rating : ℚ
deriving DecidableEq

/-- The fields of `TMDBMovie` that `PreferenceManager` reads.  The source
stores `release_date` as a string and extracts
`new Date(movie.release_date).getFullYear()`; the embedding carries that
extracted year directly as `release_year`. -/
structure TMDBMovie where
  id : Nat
  genre_ids : List Nat
  vote_average : ℚ
  release_year : Int
  popularity : ℚ
  original_language : String
deriving DecidableEq

/-- The `PreferenceWeights` interface: five named weight components. -/
structure PreferenceWeights where
  genre : ℚ
  rating : ℚ
  recency : ℚ
  popularity : ℚ
  language : ℚ
deriving DecidableEq

/-- The reason strings pushed by `calculateRecommendationScore`, one
constructor per template, carrying the values interpolated into the
string (`Matches N favorite genre(s)`, `Contains N disliked genre(s)`,
`High rating: R/10`, `Preferred language: L`). -/
inductive Reason
  | matchesFavorite (n : Nat)
  | containsDisliked (n : Nat)
  | highRating (r : ℚ)
  | preferredLanguage (l : String)
deriving DecidableEq

/-- The `RecommendationScore` result record. -/
structure RecommendationScore where
  movieId : Nat
  score : ℚ
  reasons : List Reason
deriving DecidableEq

/-- The value the `DEFAULT_PREFERENCES` module constant holds when the
module loads: the source evaluates `new Date().getFullYear()` for
`yearRange.max` and `new Date()` for `lastUpdated` once, at load time, so
the initial value is parametrised by the load-time clock.  The constant
itself is mutable; its current contents live in `StorageState.defaults`
below. -/
def DEFAULT_PREFERENCES (currentYear : Int) (now : Nat) : UserPreferences :=
  { favoriteGenres := []
    dislikedGenres := []
    yearRange := { min := 2000, max := currentYear }
    minimumRating := 6
    languages := ["en"]
    excludeAdult := true
    lastUpdated := now }

/-- `DEFAULT_WEIGHTS`: genre 0.4, rating 0.2, recency 0.15, popularity
0.15, language 0.1. -/
def DEFAULT_WEIGHTS : PreferenceWeights :=
  { genre := 2/5
    rating := 1/5
    recency := 3/20
    popularity := 3/20
    language := 1/10 }

/-! ## Storage model -/

/-- The two `localStorage` keys used by `PreferenceManager`
(`movie-swipe-preferences` and `movie-swipe-interactions`; `none` means
the key is absent) together with `defaults`, the current contents of the
shared mutable `DEFAULT_PREFERENCES` module object. -/
structure StorageState where
  prefs : Option UserPreferences
  interactions : Option (List MovieInteraction)
  defaults : UserPreferences
deriving DecidableEq

/-- A fresh session: neither storage key present, the shared default
object still holding its load-time value (load-time clock `y0`, `t0`). -/
def initialState (y0 : Int) (t0 : Nat) : StorageState :=
  { prefs := none, interactions := none, defaults := DEFAULT_PREFERENCES y0 t0 }

/-- Per-call environment: the `new Date()` reading `now` and whether each
`localStorage.setItem` call succeeds (`false` models a thrown quota /
unavailability error, which the source catches and logs). -/
structure CallEnv where
  now : Nat
  prefsWriteOk : Bool
  interactionsWriteOk : Bool
deriving DecidableEq

/-- `getPreferences`: parse the stored profile if present (JSON
round-trips are exact in the model, so the catch branch for corrupt data
does not arise); otherwise `return DEFAULT_PREFERENCES` — the shared
module object itself, by reference, with whatever contents it currently
has.  Callers that mutate the returned profile therefore mutate the
shared object exactly when nothing was stored. -/
def getPreferences (s : StorageState) : UserPreferences :=
  match s.prefs with
  | some p => p
  | none => s.defaults

/-- `savePreferences`: stamps `preferences.lastUpdated = new Date()` on the
caller's object, then attempts the storage write.  Returns the resulting
storage state and the caller's (mutated) in-memory profile object. -/
def savePreferences (s : StorageState) (preferences : UserPreferences) (env : CallEnv) :
    StorageState × UserPreferences :=
  let stamped := { preferences with lastUpdated := env.now }
  (if env.prefsWriteOk then { s with prefs := some stamped } else s, stamped)

/-- `getInteractions`: the stored interaction list, `[]` if the key is
absent. -/
def getInteractions (s : StorageState) : List MovieInteraction :=
  s.interactions.getD []

/-- `MAX_INTERACTIONS = 100`. -/
def MAX_INTERACTIONS : Nat := 100

/-! ## Preference updates -/

/-- One iteration of the `like` branch's `forEach`: add the genre to
`favoriteGenres` if it is in neither genre list (the source pushes at the
end of the array). -/
def likeStep (p : UserPreferences) (genreId : Nat) : UserPreferences :=
  if genreId ∉ p.dislikedGenres ∧ genreId ∉ p.favoriteGenres then
    { p with favoriteGenres := p.favoriteGenres ++ [genreId] }
  else p

/-- The `like` branch's genre loop over `movie.genre_ids`. -/
def applyLikeGenres (p : UserPreferences) (genreIds : List Nat) : UserPreferences :=
  genreIds.foldl likeStep p

/-- One iteration of the `dislike` branch's `forEach`: filter the genre out
of `favoriteGenres`, then push it onto `dislikedGenres` if absent (the
filter does not touch `dislikedGenres`, so the membership test reads the
unmodified `dislikedGenres`). -/
def dislikeStep (p : UserPreferences) (genreId : Nat) : UserPreferences :=
  if genreId ∉ p.dislikedGenres then
    { p with favoriteGenres := p.favoriteGenres.filter (fun id => id != genreId)
             dislikedGenres := p.dislikedGenres ++ [genreId] }
  else
    { p with favoriteGenres := p.favoriteGenres.filter (fun id => id != genreId) }

/-- The `dislike` branch's genre loop over `movie.genre_ids`. -/
def applyDislikeGenres (p : UserPreferences) (genreIds : List Nat) : UserPreferences :=
  genreIds.foldl dislikeStep p

/-- The `like` records of the stored interaction list
(`interactions.filter(i => i.action === 'like')`). -/
def likedRecords (s : StorageState) : List MovieInteraction :=
  (getInteractions s).filter (fun i => decide (i.action = SwipeAct.like))

/-- The average of the `rating` fields of the given interaction records
(`reduce((sum, i) => sum + i.rating, 0) / length`). -/
def avgRating (records : List MovieInteraction) : ℚ :=
  (records.foldl (fun sum i => sum + i.rating) 0) / (records.length : ℚ)

/-- The `like` branch's adaptive minimum-rating rule: re-read the stored
interactions, and if more than 5 of them are likes, set `minimumRating`
to `max(5.0, average like rating - 1)`. -/
def likeRatingUpdate (s : StorageState) (p : UserPreferences) : UserPreferences :=
  if (likedRecords s).length > 5 then
    { p with minimumRating := max 5 (avgRating (likedRecords s) - 1) }
  else p

/-- The action-specific in-place mutation performed by
`updatePreferencesFromInteraction` on the loaded profile object: the
`like` branch adds genres then applies the adaptive rating rule, the
`dislike` branch moves genres out of favorites and into dislikes, `skip`
changes nothing. -/
def updatedProfile (s : StorageState) (movie : TMDBMovie) (action : SwipeAct) :
    UserPreferences :=
  match action with
  | SwipeAct.like => likeRatingUpdate s (applyLikeGenres (getPreferences s) movie.genre_ids)
  | SwipeAct.dislike => applyDislikeGenres (getPreferences s) movie.genre_ids
  | SwipeAct.skip => getPreferences s

/-- `updatePreferencesFromInteraction`: load the profile, apply the
action-specific mutation, and persist via `savePreferences`.  When no
profile was stored, the loaded object *is* the shared
`DEFAULT_PREFERENCES` object, so every field write of the branch bodies
and the `lastUpdated` stamp inside `savePreferences` happened in place on
it: the shared object now holds the mutated, stamped profile
(`savePreferences` returns exactly that object's final contents). -/
def updatePreferencesFromInteraction (s : StorageState) (movie : TMDBMovie)
    (action : SwipeAct) (env : CallEnv) : StorageState :=
  if s.prefs.isNone then
    { (savePreferences s (updatedProfile s movie action) env).1 with
        defaults := (savePreferences s (updatedProfile s movie action) env).2 }
  else
    (savePreferences s (updatedProfile s movie action) env).1

/-- The interaction record built at the top of `saveInteraction`. -/
def mkInteraction (movie : TMDBMovie) (action : SwipeAct) (now : Nat) : MovieInteraction :=
  { movieId := movie.id
    action := action
    timestamp := now
    genres := movie.genre_ids
    rating := movie.vote_average }

/-- The interaction list built by `saveInteraction`: unshift the new
interaction onto the stored list and slice to `MAX_INTERACTIONS` if over
capacity. -/
def insertedLog (s : StorageState) (movie : TMDBMovie) (action : SwipeAct)
    (env : CallEnv) : List MovieInteraction :=
  if (mkInteraction movie action env.now :: getInteractions s).length > MAX_INTERACTIONS then
    (mkInteraction movie action env.now :: getInteractions s).take MAX_INTERACTIONS
  else
    mkInteraction movie action env.now :: getInteractions s

/-- `saveInteraction`: build the capped interaction list, attempt the
storage write for it, then update preferences from the interaction. -/
def saveInteraction (s : StorageState) (movie : TMDBMovie) (action : SwipeAct)
    (env : CallEnv) : StorageState :=
  updatePreferencesFromInteraction
    (if env.interactionsWriteOk then
      { s with interactions := some (insertedLog s movie action env) }
    else s)
    movie action env

/-- `resetPreferences`: remove both storage keys. -/
def resetPreferences (s : StorageState) : StorageState :=
  { s with prefs := none, interactions := none }

/-! ## Scoring -/

/-- `movie.genre_ids.filter(id => preferences.favoriteGenres.includes(id))`. -/
def favoriteGenreMatches (movie : TMDBMovie) (preferences : UserPreferences) : List Nat :=
  movie.genre_ids.filter (fun id => preferences.favoriteGenres.contains id)

/-- `movie.genre_ids.filter(id => preferences.dislikedGenres.includes(id))`. -/
def dislikedGenreMatches (movie : TMDBMovie) (preferences : UserPreferences) : List Nat :=
  movie.genre_ids.filter (fun id => preferences.dislikedGenres.contains id)

/-- Genre factor: 0.5 neutral baseline, raised by 0.2 per favorite match
(capped at 1), then lowered by 0.3 per disliked match (floored at 0). -/
def genreFactor (movie : TMDBMovie) (preferences : UserPreferences) : ℚ :=
  let g0 : ℚ := 1/2
  let g1 :=
    if 0 < (favoriteGenreMatches movie preferences).length then
      min 1 (1/2 + ((favoriteGenreMatches movie preferences).length : ℚ) * (1/5))
    else g0
  if 0 < (dislikedGenreMatches movie preferences).length then
    max 0 (g1 - ((dislikedGenreMatches movie preferences).length : ℚ) * (3/10))
  else g1

/-- `ratingScore = min(1, vote_average / 10)`. -/
def ratingScore (movie : TMDBMovie) : ℚ :=
  min 1 (movie.vote_average / 10)

/-- Rating factor: full `ratingScore` when the rating meets
`minimumRating`, else half of it. -/
def ratingFactor (movie : TMDBMovie) (preferences : UserPreferences) : ℚ :=
  if preferences.minimumRating ≤ movie.vote_average then ratingScore movie
  else ratingScore movie * (1/2)

/-- Recency factor: `max(0, 1 - (currentYear - releaseYear) / 20)`. -/
def recencyFactor (movie : TMDBMovie) (currentYear : Int) : ℚ :=
  max 0 (1 - ((currentYear - movie.release_year : Int) : ℚ) / 20)

/-- Popularity factor: `min(1, popularity / 100)`. -/
def popularityFactor (movie : TMDBMovie) : ℚ :=
  min 1 (movie.popularity / 100)

/-- Language factor: 1 when `original_language` is among the preferred
languages, else 0.3. -/
def languageFactor (movie : TMDBMovie) (preferences : UserPreferences) : ℚ :=
  if preferences.languages.contains movie.original_language then 1 else 3/10

/-- `calculateRecommendationScore`: weighted sum of the five factors,
clamped to [0,1] as `Math.min(1, Math.max(0, score))`, together with the
reason strings pushed along the way (genre reasons, then the rating
reason when the rating meets the floor, then the language reason when the
language is preferred).  The source reads `new Date().getFullYear()` for
the current year; the embedding takes that reference year as the
`currentYear` argument. -/
def calculateRecommendationScore (movie : TMDBMovie) (preferences : UserPreferences)
    (weights : PreferenceWeights) (currentYear : Int) : RecommendationScore :=
  let total :=
    genreFactor movie preferences * weights.genre +
    ratingFactor movie preferences * weights.rating +
    recencyFactor movie currentYear * weights.recency +
    popularityFactor movie * weights.popularity +
    languageFactor movie preferences * weights.language
  let reasons :=
    (if 0 < (favoriteGenreMatches movie preferences).length then
      [Reason.matchesFavorite (favoriteGenreMatches movie preferences).length] else []) ++
    (if 0 < (dislikedGenreMatches movie preferences).length then
      [Reason.containsDisliked (dislikedGenreMatches movie preferences).length] else []) ++
    (if preferences.minimumRating ≤ movie.vote_average then
      [Reason.highRating movie.vote_average] else []) ++
    (if preferences.languages.contains movie.original_language then
      [Reason.preferredLanguage movie.original_language] else [])
  { movieId := movie.id
    score := min 1 (max 0 total)
    reasons := reasons }

/-! ## Concrete inputs for the worked examples -/

/-- The profile of the spec's worked scoring example: favourite genre 28,
no disliked genres, minimum rating 6.0, languages ["en"]. -/
def exampleProfile : UserPreferences :=
  { DEFAULT_PREFERENCES 2024 0 with favoriteGenres := [28] }

/-- The item of the spec's worked scoring example. -/
def exampleMovie : TMDBMovie :=
  { id := 1
    genre_ids := [28]
    vote_average := 8
    release_year := 2020
    popularity := 50
    original_language := "en" }

/-- C1: with favourite genre 28, minimum rating 6.0, languages ["en"],
default weights and reference year 2024, the example item scores exactly
0.735 = 147/200, with per-factor values genre 0.7, rating 0.8 (full value
since 8.0 is at least the 6.0 floor), recency 0.8, popularity 0.5 and
language 1.0. -/
theorem c1_worked_scoring_example :
    genreFactor exampleMovie exampleProfile = 7/10 ∧
    ratingFactor exampleMovie exampleProfile = 4/5 ∧
    exampleProfile.minimumRating ≤ exampleMovie.vote_average ∧
    recencyFactor exampleMovie 2024 = 4/5 ∧
    popularityFactor exampleMovie = 1/2 ∧
    languageFactor exampleMovie exampleProfile = 1 ∧
    (calculateRecommendationScore exampleMovie exampleProfile DEFAULT_WEIGHTS 2024).score
      = 147/200 := by
  refine ⟨?_, ?_, ?_, ?_, ?_, ?_, ?_⟩ <;>
    norm_num [genreFactor, ratingFactor, ratingScore, recencyFactor, popularityFactor,
      languageFactor, calculateRecommendationScore, favoriteGenreMatches, dislikedGenreMatches,
      exampleMovie, exampleProfile, DEFAULT_PREFERENCES, DEFAULT_WEIGHTS, min_def, max_def]

/-- The final clamp `Math.min(1, Math.max(0, score))` is bounded below by 0. -/
theorem clamp_nonneg (x : ℚ) : 0 ≤ min 1 (max 0 x) :=
  le_min (by norm_num) (le_max_left 0 x)

/-- The final clamp `Math.min(1, Math.max(0, score))` is bounded above by 1. -/
theorem clamp_le_one (x : ℚ) : min 1 (max 0 x) ≤ 1 :=
  min_le_left 1 _

/-- C3: for every item, profile, and weight configuration with five
non-negative entries, the returned score lies in [0,1]. -/
theorem c3_score_in_unit_interval (movie : TMDBMovie) (preferences : UserPreferences)
    (weights : PreferenceWeights) (currentYear : Int)
    (hg : 0 ≤ weights.genre) (hr : 0 ≤ weights.rating) (hc : 0 ≤ weights.recency)
    (hp : 0 ≤ weights.popularity) (hl : 0 ≤ weights.language) :
    0 ≤ (calculateRecommendationScore movie preferences weights currentYear).score ∧
    (calculateRecommendationScore movie preferences weights currentYear).score ≤ 1 :=
  ⟨clamp_nonneg _, clamp_le_one _⟩

/-- Witness for C3 at the worked example's inputs. -/
theorem c3_score_in_unit_interval_witness :
    0 ≤ (calculateRecommendationScore exampleMovie exampleProfile DEFAULT_WEIGHTS 2024).score ∧
    (calculateRecommendationScore exampleMovie exampleProfile DEFAULT_WEIGHTS 2024).score ≤ 1 :=
  c3_score_in_unit_interval exampleMovie exampleProfile DEFAULT_WEIGHTS 2024
    (by norm_num [DEFAULT_WEIGHTS]) (by norm_num [DEFAULT_WEIGHTS])
    (by norm_num [DEFAULT_WEIGHTS]) (by norm_num [DEFAULT_WEIGHTS])
    (by norm_num [DEFAULT_WEIGHTS])

/-- C7: `calculateRecommendationScore` is a deterministic function of the
item, profile, weights and reference current year: identical arguments
give an identical result record, hence the same score and the same
reasons sequence. -/
theorem c7_scoring_deterministic (m1 m2 : TMDBMovie) (p1 p2 : UserPreferences)
    (w1 w2 : PreferenceWeights) (y1 y2 : Int)
    (hm : m1 = m2) (hp : p1 = p2) (hw : w1 = w2) (hy : y1 = y2) :
    calculateRecommendationScore m1 p1 w1 y1 = calculateRecommendationScore m2 p2 w2 y2 ∧
    (calculateRecommendationScore m1 p1 w1 y1).score
      = (calculateRecommendationScore m2 p2 w2 y2).score ∧
    (calculateRecommendationScore m1 p1 w1 y1).reasons
      = (calculateRecommendationScore m2 p2 w2 y2).reasons := by
  subst hm hp hw hy
  exact ⟨rfl, rfl, rfl⟩

/-- Witness for C7 at the worked example's inputs. -/
theorem c7_scoring_deterministic_witness :
    calculateRecommendationScore exampleMovie exampleProfile DEFAULT_WEIGHTS 2024
      = calculateRecommendationScore exampleMovie exampleProfile DEFAULT_WEIGHTS 2024 ∧
    (calculateRecommendationScore exampleMovie exampleProfile DEFAULT_WEIGHTS 2024).score
      = (calculateRecommendationScore exampleMovie exampleProfile DEFAULT_WEIGHTS 2024).score ∧
    (calculateRecommendationScore exampleMovie exampleProfile DEFAULT_WEIGHTS 2024).reasons
      = (calculateRecommendationScore exampleMovie exampleProfile DEFAULT_WEIGHTS 2024).reasons :=
  c7_scoring_deterministic exampleMovie exampleMovie exampleProfile exampleProfile
    DEFAULT_WEIGHTS DEFAULT_WEIGHTS 2024 2024 rfl rfl rfl rfl

/-- C8: for an item released strictly after the reference year, the
recency factor equals `1 + (releaseYear - currentYear)/20`, exceeds 1
before weighting, and the final returned score is still at most 1. -/
theorem c8_future_release_recency (movie : TMDBMovie) (currentYear : Int)
    (h : currentYear < movie.release_year) :
    recencyFactor movie currentYear
      = 1 + ((movie.release_year - currentYear : Int) : ℚ) / 20 ∧
    1 < recencyFactor movie currentYear ∧
    ∀ (preferences : UserPreferences) (weights : PreferenceWeights),
      (calculateRecommendationScore movie preferences weights currentYear).score ≤ 1 := by
  have hd : (1 : ℚ) ≤ ((movie.release_year - currentYear : Int) : ℚ) := by
    have h1 : (1 : Int) ≤ movie.release_year - currentYear := by omega
    exact_mod_cast h1
  have hcast : ((currentYear - movie.release_year : Int) : ℚ)
      = -((movie.release_year - currentYear : Int) : ℚ) := by
    push_cast
    ring
  have heq : recencyFactor movie currentYear
      = 1 + ((movie.release_year - currentYear : Int) : ℚ) / 20 := by
    unfold recencyFactor
    rw [hcast]
    have hval : (1 : ℚ) - -((movie.release_year - currentYear : Int) : ℚ) / 20
        = 1 + ((movie.release_year - currentYear : Int) : ℚ) / 20 := by
      ring
    rw [hval, max_eq_right (by linarith)]
  refine ⟨heq, ?_, fun preferences weights => clamp_le_one _⟩
  rw [heq]
  linarith

/-- An item with a release year in the future relative to the reference
year 2024. -/
def futureMovie : TMDBMovie :=
  { exampleMovie with id := 2, release_year := 2030 }

/-- Witness for C8: released 2030, scored with reference year 2024. -/
theorem c8_future_release_recency_witness :
    recencyFactor futureMovie 2024
      = 1 + ((futureMovie.release_year - 2024 : Int) : ℚ) / 20 ∧
    1 < recencyFactor futureMovie 2024 ∧
    ∀ (preferences : UserPreferences) (weights : PreferenceWeights),
      (calculateRecommendationScore futureMovie preferences weights 2024).score ≤ 1 :=
  c8_future_release_recency futureMovie 2024 (by norm_num [futureMovie, exampleMovie])

/-- C10: `savePreferences` stamps `lastUpdated` on the caller's in-memory
profile object unconditionally, so when the storage write fails the
storage is unchanged but the caller's object has still been mutated. -/
theorem c10_save_stamps_before_write (s : StorageState) (preferences : UserPreferences)
    (env : CallEnv) :
    (savePreferences s preferences env).2.lastUpdated = env.now ∧
    (env.prefsWriteOk = false → (savePreferences s preferences env).1 = s) := by
  refine ⟨rfl, fun h => ?_⟩
  simp [savePreferences, h]

/-- A call environment whose preferences write fails. -/
def failEnv : CallEnv :=
  { now := 5, prefsWriteOk := false, interactionsWriteOk := true }

/-- Witness for C10: a failed write leaves storage unchanged while the
in-memory profile has its timestamp stamped. -/
theorem c10_save_stamps_before_write_witness :
    (savePreferences (initialState 2024 0) exampleProfile failEnv).2.lastUpdated = 5 ∧
    (savePreferences (initialState 2024 0) exampleProfile failEnv).1 = initialState 2024 0 := by
  have h := c10_save_stamps_before_write (initialState 2024 0) exampleProfile failEnv
  exact ⟨h.1, h.2 rfl⟩

/-- A storage state holding a stored profile whose timestamp is tick 0,
the shared default object untouched. -/
def storedState : StorageState :=
  { prefs := some (DEFAULT_PREFERENCES 2024 0)
    interactions := none
    defaults := DEFAULT_PREFERENCES 2024 0 }

/-- An environment whose clock reads tick 1, both storage writes
succeeding. -/
def tickEnv : CallEnv :=
  { now := 1, prefsWriteOk := true, interactionsWriteOk := true }

/-- C6: the code violates the claim.  A `like` recorded while no profile
is stored loads the shared `DEFAULT_PREFERENCES` object by reference and
pushes genre 28 into its `favoriteGenres` array in place; `reset()` then
removes only the two storage keys, so the next `load()` falls through to
`return DEFAULT_PREFERENCES` and yields the mutated object with
`favoriteGenres = [28]`, not the documented default. -/
theorem c6_reset_load_returns_mutated_default :
    (getPreferences (resetPreferences
        (saveInteraction (initialState 2024 0) exampleMovie SwipeAct.like
          tickEnv))).favoriteGenres = [28] ∧
    (getPreferences (resetPreferences
        (saveInteraction (initialState 2024 0) exampleMovie SwipeAct.like
          tickEnv))).favoriteGenres ≠ (DEFAULT_PREFERENCES 2024 0).favoriteGenres := by
  exact ⟨by decide, by decide⟩

/-- C9 counterexample: a `skip` interaction does mutate the stored
profile's `lastUpdated` field, because `updatePreferencesFromInteraction`
unconditionally re-persists the profile through `savePreferences`, which
stamps the current time. -/
theorem c9_skip_restamps_lastUpdated :
    (getPreferences (saveInteraction storedState exampleMovie SwipeAct.skip
        tickEnv)).lastUpdated
      ≠ (getPreferences storedState).lastUpdated := by
  decide

/-- C9 amended: a `skip` interaction leaves `favoriteGenres`,
`dislikedGenres`, `minimumRating` and `languages` of the stored profile
unchanged; `lastUpdated` alone is restamped to the time of the call
(whenever the profile write succeeds). -/
theorem c9_skip_frame (s : StorageState) (movie : TMDBMovie) (env : CallEnv) :
    (getPreferences (saveInteraction s movie SwipeAct.skip env)).favoriteGenres
      = (getPreferences s).favoriteGenres ∧
    (getPreferences (saveInteraction s movie SwipeAct.skip env)).dislikedGenres
      = (getPreferences s).dislikedGenres ∧
    (getPreferences (saveInteraction s movie SwipeAct.skip env)).minimumRating
      = (getPreferences s).minimumRating ∧
    (getPreferences (saveInteraction s movie SwipeAct.skip env)).languages
      = (getPreferences s).languages ∧
    (env.prefsWriteOk = true →
      (getPreferences (saveInteraction s movie SwipeAct.skip env)).lastUpdated
        = env.now) := by
  obtain ⟨op, oi, od⟩ := s
  cases hiw : env.interactionsWriteOk <;> cases hpw : env.prefsWriteOk <;> cases op <;>
    simp [saveInteraction, updatePreferencesFromInteraction, updatedProfile, savePreferences,
      getPreferences, hiw, hpw]

/-- Witness for C9's amended statement at a concrete state and clock. -/
theorem c9_skip_frame_witness :
    (getPreferences (saveInteraction storedState exampleMovie SwipeAct.skip
        tickEnv)).favoriteGenres
      = (getPreferences storedState).favoriteGenres ∧
    (getPreferences (saveInteraction storedState exampleMovie SwipeAct.skip
        tickEnv)).minimumRating
      = (getPreferences storedState).minimumRating ∧
    (getPreferences (saveInteraction storedState exampleMovie SwipeAct.skip
        tickEnv)).lastUpdated = 1 := by
  have h := c9_skip_frame storedState exampleMovie tickEnv
  exact ⟨h.1, h.2.2.1, h.2.2.2.2 rfl⟩

/-! ## The genre-disjointness invariant (C2) -/

/-- No genre identifier sits in both genre lists of a profile. -/
def GenresDisjoint (p : UserPreferences) : Prop :=
  ∀ g : Nat, g ∈ p.favoriteGenres → g ∉ p.dislikedGenres

/-- Adding a favourite genre (only done when it is not disliked) keeps the
genre lists disjoint. -/
theorem likeStep_disjoint (p : UserPreferences) (g : Nat) (h : GenresDisjoint p) :
    GenresDisjoint (likeStep p g) := by
  unfold GenresDisjoint likeStep at *
  split
  · rename_i hcond
    intro x hx
    simp only [List.mem_append, List.mem_singleton] at hx
    rcases hx with hx | rfl
    · exact h x hx
    · exact hcond.1
  · exact h

/-- The like branch's genre loop keeps the genre lists disjoint. -/
theorem applyLikeGenres_disjoint (l : List Nat) (p : UserPreferences)
    (h : GenresDisjoint p) : GenresDisjoint (applyLikeGenres p l) := by
  induction l generalizing p with
  | nil => exact h
  | cons g t ih => exact ih (likeStep p g) (likeStep_disjoint p g h)

/-- Moving a genre out of favourites and into dislikes keeps the genre
lists disjoint. -/
theorem dislikeStep_disjoint (p : UserPreferences) (g : Nat) (h : GenresDisjoint p) :
    GenresDisjoint (dislikeStep p g) := by
  unfold GenresDisjoint dislikeStep at *
  split
  · intro x hx hxd
    simp only [List.mem_filter, bne_iff_ne, ne_eq, decide_eq_true_eq] at hx
    simp only [List.mem_append, List.mem_singleton] at hxd
    rcases hxd with hxd | rfl
    · exact h x hx.1 hxd
    · exact hx.2 rfl
  · intro x hx hxd
    simp only [List.mem_filter, bne_iff_ne, ne_eq, decide_eq_true_eq] at hx
    exact h x hx.1 hxd

/-- The dislike branch's genre loop keeps the genre lists disjoint. -/
theorem applyDislikeGenres_disjoint (l : List Nat) (p : UserPreferences)
    (h : GenresDisjoint p) : GenresDisjoint (applyDislikeGenres p l) := by
  induction l generalizing p with
  | nil => exact h
  | cons g t ih => exact ih (dislikeStep p g) (dislikeStep_disjoint p g h)

/-- The adaptive rating rule does not touch the genre lists. -/
theorem likeRatingUpdate_favoriteGenres (s : StorageState) (p : UserPreferences) :
    (likeRatingUpdate s p).favoriteGenres = p.favoriteGenres := by
  unfold likeRatingUpdate
  split <;> rfl

/-- The adaptive rating rule does not touch the disliked genres. -/
theorem likeRatingUpdate_dislikedGenres (s : StorageState) (p : UserPreferences) :
    (likeRatingUpdate s p).dislikedGenres = p.dislikedGenres := by
  unfold likeRatingUpdate
  split <;> rfl

/-- The adaptive rating rule keeps the genre lists disjoint. -/
theorem likeRatingUpdate_disjoint (s : StorageState) (p : UserPreferences)
    (h : GenresDisjoint p) : GenresDisjoint (likeRatingUpdate s p) := by
  unfold GenresDisjoint at *
  simp only [likeRatingUpdate_favoriteGenres, likeRatingUpdate_dislikedGenres]
  exact h

/-- Invariant on the state: whatever profile is stored has disjoint genre
lists, and so does the current contents of the shared default object. -/
def StorageInv (s : StorageState) : Prop :=
  (∀ p : UserPreferences, s.prefs = some p → GenresDisjoint p) ∧
  GenresDisjoint s.defaults

/-- A fresh session satisfies the invariant. -/
theorem initialState_inv (y0 : Int) (t0 : Nat) : StorageInv (initialState y0 t0) := by
  constructor
  · intro p hp
    simp [initialState] at hp
  · intro g hg
    simp [initialState, DEFAULT_PREFERENCES] at hg

/-- A profile loaded from an invariant state has disjoint genre lists. -/
theorem getPreferences_disjoint (s : StorageState) (h : StorageInv s) :
    GenresDisjoint (getPreferences s) := by
  obtain ⟨op, oi, od⟩ := s
  cases op with
  | some p => exact h.1 p rfl
  | none => exact h.2

/-- The profile object written back by an interaction has disjoint genre
lists whenever the state it was loaded from satisfies the invariant. -/
theorem updatedProfile_disjoint (s : StorageState) (movie : TMDBMovie) (action : SwipeAct)
    (h : StorageInv s) : GenresDisjoint (updatedProfile s movie action) := by
  have hp0 : GenresDisjoint (getPreferences s) := getPreferences_disjoint s h
  cases action with
  | like =>
    exact likeRatingUpdate_disjoint _ _
      (applyLikeGenres_disjoint movie.genre_ids _ hp0)
  | dislike => exact applyDislikeGenres_disjoint movie.genre_ids _ hp0
  | skip => exact hp0

/-- The state produced by `updatePreferencesFromInteraction`, slot by
slot: the stored profile becomes the stamped mutated object when the
write succeeds, the interactions slot is untouched, and the shared
default object holds the stamped mutated object exactly when the loaded
profile was the shared default (nothing stored). -/
theorem updatePreferences_eq (s : StorageState) (movie : TMDBMovie) (action : SwipeAct)
    (env : CallEnv) :
    updatePreferencesFromInteraction s movie action env =
      { prefs := if env.prefsWriteOk then
            some { updatedProfile s movie action with lastUpdated := env.now }
          else s.prefs
        interactions := s.interactions
        defaults := if s.prefs.isNone then
            { updatedProfile s movie action with lastUpdated := env.now }
          else s.defaults } := by
  obtain ⟨op, oi, od⟩ := s
  cases hpw : env.prefsWriteOk <;> cases op <;>
    simp [updatePreferencesFromInteraction, savePreferences, hpw]

/-- `updatePreferencesFromInteraction` preserves the invariant. -/
theorem updatePreferences_inv (s : StorageState) (movie : TMDBMovie) (action : SwipeAct)
    (env : CallEnv) (h : StorageInv s) :
    StorageInv (updatePreferencesFromInteraction s movie action env) := by
  have hd : GenresDisjoint (updatedProfile s movie action) :=
    updatedProfile_disjoint s movie action h
  have hds : GenresDisjoint { updatedProfile s movie action with lastUpdated := env.now } :=
    fun g hg => hd g hg
  rw [updatePreferences_eq]
  constructor
  · intro q hq
    cases hpw : env.prefsWriteOk with
    | false =>
      simp only [hpw, Bool.false_eq_true, if_false] at hq
      exact h.1 q hq
    | true =>
      simp only [hpw, if_true, Option.some.injEq] at hq
      subst hq
      exact hds
  · cases hn : s.prefs.isNone with
    | false =>
      simp only [hn, Bool.false_eq_true, if_false]
      exact h.2
    | true =>
      simp only [hn, if_true]
      exact hds

/-- The invariant does not depend on the interactions slot. -/
theorem storageInv_set_interactions (s : StorageState)
    (l : Option (List MovieInteraction)) (h : StorageInv s) :
    StorageInv { s with interactions := l } :=
  ⟨fun q hq => h.1 q hq, h.2⟩

/-- `saveInteraction` preserves the storage invariant. -/
theorem saveInteraction_inv (s : StorageState) (movie : TMDBMovie) (action : SwipeAct)
    (env : CallEnv) (h : StorageInv s) :
    StorageInv (saveInteraction s movie action env) := by
  unfold saveInteraction
  cases hiw : env.interactionsWriteOk with
  | false =>
    simp only [Bool.false_eq_true, if_false]
    exact updatePreferences_inv s movie action env h
  | true =>
    simp only [if_true]
    exact updatePreferences_inv _ movie action env (storageInv_set_interactions s _ h)

/-- One observable step of the manager: an interaction together with the
clock readings and write outcomes of the call. -/
structure StepInput where
  movie : TMDBMovie
  act : SwipeAct
  env : CallEnv

/-- A finite sequence of `saveInteraction` calls, applied oldest first. -/
def runTrace (s : StorageState) (trace : List StepInput) : StorageState :=
  trace.foldl (fun t step => saveInteraction t step.movie step.act step.env) s

/-- Traces of `saveInteraction` calls preserve the storage invariant. -/
theorem runTrace_inv (trace : List StepInput) (s : StorageState) (h : StorageInv s) :
    StorageInv (runTrace s trace) := by
  induction trace generalizing s with
  | nil => exact h
  | cons step t ih => exact ih _ (saveInteraction_inv s step.movie step.act step.env h)

/-- C2: starting from a fresh session (default profile), after every
finite sequence of `saveInteraction` calls with arbitrary items, actions,
clock readings and write outcomes, no genre identifier is in both
`favoriteGenres` and `dislikedGenres` of the resulting profile. -/
theorem c2_no_genre_in_both_lists (y0 : Int) (t0 : Nat) (trace : List StepInput) (g : Nat)
    (h : g ∈ (getPreferences (runTrace (initialState y0 t0) trace)).favoriteGenres) :
    g ∉ (getPreferences (runTrace (initialState y0 t0) trace)).dislikedGenres :=
  getPreferences_disjoint _
    (runTrace_inv trace (initialState y0 t0) (initialState_inv y0 t0)) g h

/-- A single like on the worked example's item (genre 28). -/
def likeTrace : List StepInput :=
  [{ movie := exampleMovie, act := SwipeAct.like, env := tickEnv }]

/-- Witness for C2: after one like on a genre-28 item, 28 is a favourite
genre and not a disliked one. -/
theorem c2_no_genre_in_both_lists_witness :
    28 ∈ (getPreferences (runTrace (initialState 2024 0) likeTrace)).favoriteGenres ∧
    28 ∉ (getPreferences (runTrace (initialState 2024 0) likeTrace)).dislikedGenres :=
  ⟨by decide, c2_no_genre_in_both_lists 2024 0 likeTrace 28 (by decide)⟩

/-! ## The interaction log (C5) and the adaptive rating rule (C4) -/

/-- Adding a favourite genre does not touch `minimumRating`. -/
theorem likeStep_minimumRating (p : UserPreferences) (g : Nat) :
    (likeStep p g).minimumRating = p.minimumRating := by
  unfold likeStep
  split <;> rfl

/-- The like branch's genre loop does not touch `minimumRating`. -/
theorem applyLikeGenres_minimumRating (l : List Nat) (p : UserPreferences) :
    (applyLikeGenres p l).minimumRating = p.minimumRating := by
  induction l generalizing p with
  | nil => rfl
  | cons g t ih => exact (ih (likeStep p g)).trans (likeStep_minimumRating p g)

/-- `updatePreferencesFromInteraction` only writes the preferences slot,
never the interaction log. -/
theorem getInteractions_update (s : StorageState) (movie : TMDBMovie) (action : SwipeAct)
    (env : CallEnv) :
    getInteractions (updatePreferencesFromInteraction s movie action env)
      = getInteractions s := by
  rw [updatePreferences_eq]
  rfl

/-- Writing the interaction slot does not change what `getPreferences`
returns. -/
theorem getPreferences_set_interactions (s : StorageState)
    (l : Option (List MovieInteraction)) :
    getPreferences { s with interactions := l } = getPreferences s :=
  rfl

/-- The capped interaction list never exceeds `MAX_INTERACTIONS`
entries, whatever the previous log length was. -/
theorem insertedLog_length_le (s : StorageState) (movie : TMDBMovie) (action : SwipeAct)
    (env : CallEnv) :
    (insertedLog s movie action env).length ≤ MAX_INTERACTIONS := by
  unfold insertedLog
  split
  · rename_i hlen
    simp only [List.length_take]
    omega
  · rename_i hlen
    omega

/-- The capped interaction list starts with the interaction just built. -/
theorem insertedLog_head (s : StorageState) (movie : TMDBMovie) (action : SwipeAct)
    (env : CallEnv) :
    (insertedLog s movie action env).head? = some (mkInteraction movie action env.now) := by
  unfold insertedLog
  split
  · rename_i hlen
    rw [show MAX_INTERACTIONS = 99 + 1 from rfl, List.take_succ_cons]
    rfl
  · rfl

/-- C5: a `saveInteraction` call keeps the stored interaction log at no
more than `MAX_INTERACTIONS = 100` entries (unconditionally when the log
write succeeds, and assuming the prior bound when the write fails and the
old log is kept), and when the log write succeeds the entry at index 0 is
the interaction just recorded. -/
theorem c5_log_bounded_newest_first (s : StorageState) (movie : TMDBMovie)
    (action : SwipeAct) (env : CallEnv) :
    ((getInteractions s).length ≤ MAX_INTERACTIONS →
      (getInteractions (saveInteraction s movie action env)).length ≤ MAX_INTERACTIONS) ∧
    (env.interactionsWriteOk = true →
      (getInteractions (saveInteraction s movie action env)).length ≤ MAX_INTERACTIONS ∧
      (getInteractions (saveInteraction s movie action env)).head?
        = some (mkInteraction movie action env.now)) := by
  unfold saveInteraction
  rw [getInteractions_update]
  cases hiw : env.interactionsWriteOk with
  | false =>
    simp only [Bool.false_eq_true, if_false]
    exact ⟨fun h => h, fun h => by cases h⟩
  | true =>
    simp only [if_true]
    refine ⟨fun _ => ?_, fun _ => ⟨?_, ?_⟩⟩
    · exact insertedLog_length_le s movie action env
    · exact insertedLog_length_le s movie action env
    · exact insertedLog_head s movie action env

/-- Witness for C5: one interaction recorded on fresh storage. -/
theorem c5_log_bounded_newest_first_witness :
    (getInteractions (saveInteraction (initialState 2024 0) exampleMovie SwipeAct.like
        tickEnv)).length ≤ MAX_INTERACTIONS ∧
    (getInteractions (saveInteraction (initialState 2024 0) exampleMovie SwipeAct.like
        tickEnv)).head? = some (mkInteraction exampleMovie SwipeAct.like 1) :=
  (c5_log_bounded_newest_first (initialState 2024 0) exampleMovie SwipeAct.like tickEnv).2 rfl

/-- After a successfully persisted `like`, the stored `minimumRating` is
recomputed as `max(5, average like rating - 1)` from the stored like
records when there are more than 5 of them, and is left unchanged
otherwise. -/
theorem update_like_minRating (s : StorageState) (movie : TMDBMovie) (env : CallEnv)
    (hpw : env.prefsWriteOk = true) :
    (5 < (likedRecords s).length →
      (getPreferences
          (updatePreferencesFromInteraction s movie SwipeAct.like env)).minimumRating
        = max 5 (avgRating (likedRecords s) - 1)) ∧
    ((likedRecords s).length ≤ 5 →
      (getPreferences
          (updatePreferencesFromInteraction s movie SwipeAct.like env)).minimumRating
        = (getPreferences s).minimumRating) := by
  have hgp : (getPreferences
      (updatePreferencesFromInteraction s movie SwipeAct.like env)).minimumRating
      = (updatedProfile s movie SwipeAct.like).minimumRating := by
    rw [updatePreferences_eq]
    simp [getPreferences, hpw]
  rw [hgp]
  show (5 < (likedRecords s).length →
      (likeRatingUpdate s (applyLikeGenres (getPreferences s)
        movie.genre_ids)).minimumRating = _) ∧
    ((likedRecords s).length ≤ 5 →
      (likeRatingUpdate s (applyLikeGenres (getPreferences s)
        movie.genre_ids)).minimumRating = _)
  unfold likeRatingUpdate
  by_cases hc : (likedRecords s).length > 5
  · rw [if_pos hc]
    exact ⟨fun _ => rfl, fun h => absurd hc (by omega)⟩
  · rw [if_neg hc]
    refine ⟨fun h => absurd h hc, fun _ => ?_⟩
    exact applyLikeGenres_minimumRating movie.genre_ids (getPreferences s)

/-- Lifting the adaptive rating rule through `saveInteraction`: after a
persisted `like`, the stored `minimumRating` follows the recompute rule
relative to the log the call left in storage. -/
theorem saveInteraction_like_minRating (s : StorageState) (movie : TMDBMovie)
    (env : CallEnv) (hpw : env.prefsWriteOk = true) :
    (5 < (likedRecords (saveInteraction s movie SwipeAct.like env)).length →
      (getPreferences (saveInteraction s movie SwipeAct.like env)).minimumRating
        = max 5 (avgRating (likedRecords (saveInteraction s movie SwipeAct.like env)) - 1)) ∧
    ((likedRecords (saveInteraction s movie SwipeAct.like env)).length ≤ 5 →
      (getPreferences (saveInteraction s movie SwipeAct.like env)).minimumRating
        = (getPreferences s).minimumRating) := by
  unfold saveInteraction
  cases hiw : env.interactionsWriteOk with
  | false =>
    simp only [Bool.false_eq_true, if_false]
    have hlr : likedRecords (updatePreferencesFromInteraction s movie SwipeAct.like env)
        = likedRecords s := by
      unfold likedRecords
      rw [getInteractions_update]
    rw [hlr]
    exact update_like_minRating s movie env hpw
  | true =>
    simp only [if_true]
    have hlr : likedRecords (updatePreferencesFromInteraction
          { s with interactions := some (insertedLog s movie SwipeAct.like env) }
          movie SwipeAct.like env)
        = likedRecords { s with interactions := some (insertedLog s movie SwipeAct.like env) } := by
      unfold likedRecords
      rw [getInteractions_update]
    rw [hlr]
    have h := update_like_minRating
      { s with interactions := some (insertedLog s movie SwipeAct.like env) } movie env hpw
    rw [getPreferences_set_interactions] at h
    exact h

/-- An item carrying only an id and a vote average, for the adaptive
rating worked example. -/
def ratedMovie (n : Nat) (r : ℚ) : TMDBMovie :=
  { id := n
    genre_ids := []
    vote_average := r
    release_year := 2020
    popularity := 0
    original_language := "en" }

/-- Six consecutive likes on items rated 9, 9, 8, 8, 7, 7. -/
def sixLikesTrace : List StepInput :=
  [{ movie := ratedMovie 1 9, act := SwipeAct.like, env := tickEnv },
   { movie := ratedMovie 2 9, act := SwipeAct.like, env := tickEnv },
   { movie := ratedMovie 3 8, act := SwipeAct.like, env := tickEnv },
   { movie := ratedMovie 4 8, act := SwipeAct.like, env := tickEnv },
   { movie := ratedMovie 5 7, act := SwipeAct.like, env := tickEnv },
   { movie := ratedMovie 6 7, act := SwipeAct.like, env := tickEnv }]

/-- C4: whenever a persisted `like` leaves strictly more than 5 like
records in the stored log, `minimumRating` is recomputed fresh as
`max(5, average like rating - 1)`; with 5 or fewer like records it is
left unchanged; and six likes on items rated [9,9,8,8,7,7] from fresh
storage leave `minimumRating = 7`. -/
theorem c4_adaptive_minimum_rating :
    (∀ (s : StorageState) (movie : TMDBMovie) (env : CallEnv),
      env.prefsWriteOk = true →
      (5 < (likedRecords (saveInteraction s movie SwipeAct.like env)).length →
        (getPreferences (saveInteraction s movie SwipeAct.like env)).minimumRating
          = max 5 (avgRating (likedRecords (saveInteraction s movie SwipeAct.like env)) - 1)) ∧
      ((likedRecords (saveInteraction s movie SwipeAct.like env)).length ≤ 5 →
        (getPreferences (saveInteraction s movie SwipeAct.like env)).minimumRating
          = (getPreferences s).minimumRating)) ∧
    (getPreferences (runTrace (initialState 2024 0) sixLikesTrace)).minimumRating = 7 := by
  constructor
  · exact fun s movie env hpw => saveInteraction_like_minRating s movie env hpw
  · norm_num [runTrace, sixLikesTrace, saveInteraction, insertedLog, mkInteraction,
      updatePreferencesFromInteraction, updatedProfile, savePreferences, getPreferences,
      getInteractions, likedRecords, avgRating, likeRatingUpdate, applyLikeGenres, likeStep,
      DEFAULT_PREFERENCES, MAX_INTERACTIONS, tickEnv, ratedMovie, initialState,
      max_def, min_def, List.filter, List.foldl]

/-- Witness for C4's general rule: the sixth like of the worked trace. -/
theorem c4_adaptive_minimum_rating_witness :
    (5 < (likedRecords (saveInteraction (runTrace (initialState 2024 0) (sixLikesTrace.take 5))
        (ratedMovie 6 7) SwipeAct.like tickEnv)).length →
      (getPreferences (saveInteraction (runTrace (initialState 2024 0) (sixLikesTrace.take 5))
          (ratedMovie 6 7) SwipeAct.like tickEnv)).minimumRating
        = max 5 (avgRating (likedRecords (saveInteraction
            (runTrace (initialState 2024 0) (sixLikesTrace.take 5))
            (ratedMovie 6 7) SwipeAct.like tickEnv)) - 1)) ∧
    ((likedRecords (saveInteraction (runTrace (initialState 2024 0) (sixLikesTrace.take 5))
        (ratedMovie 6 7) SwipeAct.like tickEnv)).length ≤ 5 →
      (getPreferences (saveInteraction (runTrace (initialState 2024 0) (sixLikesTrace.take 5))
          (ratedMovie 6 7) SwipeAct.like tickEnv)).minimumRating
        = (getPreferences (runTrace (initialState 2024 0)
            (sixLikesTrace.take 5))).minimumRating) :=
  (c4_adaptive_minimum_rating.1 (runTrace (initialState 2024 0) (sixLikesTrace.take 5))
    (ratedMovie 6 7) tickEnv rfl)

end MovieSwipe
